import Mathlib

/-!
Shallow embedding of the casflo-api ledger engine.

The repository contains two implementations of the transaction lifecycle:

* the query layer of `src/db/queries.js`: `createTransaction`,
  `deleteTransaction`, `updateTransaction`, and the batch endpoint of
  `src/routes/books.js`, all of which collect prepared statements and run
  them through one atomic `db.batch` call;
* the model layer `TransactionModel` of `src/models/additional.js`:
  `create` / `createTransactionSplits` / `update` / `delete` / `createBatch`,
  which issue each SQL statement as its own separately committed `run()`.

The embedding models the three tables touched by the ledger engine
(`accounts`, `transactions`, `transaction_splits`) as lists of typed rows and
each SQL statement as a `Stmt` value with an interpreter `applyStmt`.
String ids generated by `crypto.randomUUID` / `Date.now` are modeled as
natural numbers supplied by the caller.  `Math.round` on amounts is the
identity because amounts are modeled as integers (minor currency units, as
the schema stores them).  Timestamp columns (`created_at`, `updated_at`) and
caching/read-back logic are omitted: no claim mentions them.
-/

namespace Casflo

/-- A row of the `transactions` table (schema.sql), without timestamp
columns.  Columns not set by an INSERT take their schema defaults. -/
structure TxRow where
  id : Nat
  book_id : Nat
  contact_id : Option Nat
  description : String
  transaction_date : String
  tags : String
  notes : Option String
  attachments : String
  status : String
  created_by : Nat
  updated_by : Option Nat
deriving Repr, DecidableEq

/-- A row of the `transaction_splits` table.  The column named `type` holds
the DEBIT/CREDIT direction tag. -/
structure SplitRow where
  id : Nat
  transaction_id : Nat
  account_id : Nat
  category_id : Option Nat
  amount : Int
  type : String
deriving Repr, DecidableEq

/-- A row of the `accounts` table, restricted to the columns the ledger
engine reads or writes. -/
structure AccountRow where
  id : Nat
  balance : Int
deriving Repr, DecidableEq

/-- The persistent state: the three ledger tables. -/
structure DB where
  accounts : List AccountRow
  transactions : List TxRow
  splits : List SplitRow
deriving Repr, DecidableEq

/-- The SQL statements issued by the two implementations. -/
inductive Stmt
  | insertTx (r : TxRow)
  | insertSplit (r : SplitRow)
  | addBalance (account_id : Nat) (delta : Int)
  | deleteSplitsOfTx (transaction_id : Nat)
  | deleteTx (id : Nat)
  | updateTxHeader (id : Nat) (contact_id : Option Nat)
      (description : String) (transaction_date : String) (updated_by : Nat)
deriving Repr, DecidableEq

/-- Interpreter for one SQL statement.  `addBalance` is
`UPDATE accounts SET balance = balance + ? WHERE id = ?`. -/
def applyStmt (db : DB) (s : Stmt) : DB :=
  match s with
  | .insertTx r => { db with transactions := db.transactions ++ [r] }
  | .insertSplit r => { db with splits := db.splits ++ [r] }
  | .addBalance aid d =>
      { db with accounts := db.accounts.map fun a =>
          if a.id = aid then { a with balance := a.balance + d } else a }
  | .deleteSplitsOfTx tid =>
      { db with splits := db.splits.filter fun s => s.transaction_id ≠ tid }
  | .deleteTx tid =>
      { db with transactions := db.transactions.filter fun t => t.id ≠ tid }
  | .updateTxHeader tid c d dt ub =>
      { db with transactions := db.transactions.map fun t =>
          if t.id = tid then
            { t with contact_id := c, description := d,
                     transaction_date := dt, updated_by := some ub }
          else t }

/-- Run a list of statements in order (one `db.batch` call, or a sequence of
individual `run()` calls, depending on the caller). -/
def applyStmts (db : DB) (l : List Stmt) : DB := l.foldl applyStmt db

/-- Run a list of atomic units.  Each inner list is one all-or-nothing
commit: a `db.batch` call commits one unit holding many statements, while a
bare `run()` commits a singleton unit. -/
def applyUnits (db : DB) (us : List (List Stmt)) : DB := us.foldl applyStmts db

/-- The state observable after the first `k` atomic units have committed and
a storage failure stops the rest: committed units are durable, the rest
never happened. -/
def applyFirstUnits (db : DB) (us : List (List Stmt)) (k : Nat) : DB :=
  applyUnits db (us.take k)

/-- Sum of the signed amounts of the splits belonging to one transaction. -/
def DB.sumSplitsOfTx (db : DB) (txId : Nat) : Int :=
  ((db.splits.filter fun s => s.transaction_id = txId).map SplitRow.amount).sum

/-- Sum of the signed amounts of the splits posted to one account. -/
def DB.sumSplitsOnAccount (db : DB) (aid : Nat) : Int :=
  ((db.splits.filter fun s => s.account_id = aid).map SplitRow.amount).sum

/-- The stored balance of an account, if the account row exists. -/
def DB.balanceOf (db : DB) (aid : Nat) : Option Int :=
  (db.accounts.find? fun a => a.id = aid).map AccountRow.balance

namespace Queries

/-- The `data` argument of `createTransaction` / `updateTransaction` in
`src/db/queries.js`.  `amount` is already `Math.round(data.amount)`:
amounts are integers in minor units, so the rounding is the identity. -/
structure TxData where
  type : String
  amount : Int
  book_id : Nat
  contact_id : Option Nat
  description : String
  transaction_date : String
  from_account_id : Nat
  to_account_id : Nat
  category_id : Option Nat
deriving Repr

/-- The header row inserted by `createTransaction`:
`INSERT INTO transactions (id, book_id, contact_id, description,
transaction_date, created_by)`; the remaining columns take their schema
defaults. -/
def newTxRow (data : TxData) (userId txId : Nat) : TxRow :=
  { id := txId, book_id := data.book_id, contact_id := data.contact_id,
    description := data.description,
    transaction_date := data.transaction_date,
    tags := "[]", notes := none, attachments := "[]",
    status := "CONFIRMED", created_by := userId, updated_by := none }

/-- The statement batch built by `createTransaction` (queries.js, around
lines 270-327): header insert, then per type two split inserts and the
balance updates.  The `Invalid amount` and `Invalid transaction type`
errors are returned before `db.batch` runs, so no statement executes.
`txId`, `sid1`, `sid2` stand for the `crypto.randomUUID` results. -/
def createTransactionStmts (data : TxData) (userId txId sid1 sid2 : Nat) :
    Except String (List Stmt) :=
  if data.amount ≤ 0 then .error "Invalid amount"
  else if data.type = "EXPENSE" then
    .ok [.insertTx (newTxRow data userId txId),
      .insertSplit ⟨sid1, txId, data.from_account_id, data.category_id,
        data.amount, "DEBIT"⟩,
      .insertSplit ⟨sid2, txId, data.from_account_id, none,
        -data.amount, "CREDIT"⟩,
      .addBalance data.from_account_id (-data.amount)]
  else if data.type = "INCOME" then
    .ok [.insertTx (newTxRow data userId txId),
      .insertSplit ⟨sid1, txId, data.to_account_id, none,
        data.amount, "DEBIT"⟩,
      .insertSplit ⟨sid2, txId, data.to_account_id, data.category_id,
        -data.amount, "CREDIT"⟩,
      .addBalance data.to_account_id data.amount]
  else if data.type = "TRANSFER" then
    .ok [.insertTx (newTxRow data userId txId),
      .insertSplit ⟨sid1, txId, data.to_account_id, none,
        data.amount, "DEBIT"⟩,
      .insertSplit ⟨sid2, txId, data.from_account_id, none,
        -data.amount, "CREDIT"⟩,
      .addBalance data.to_account_id data.amount,
      .addBalance data.from_account_id (-data.amount)]
  else .error "Invalid transaction type"

/-- The atomic units issued by `createTransaction`: the whole batch is one
`db.batch` call, hence one unit. -/
def createTransactionUnits (data : TxData) (userId txId sid1 sid2 : Nat) :
    Except String (List (List Stmt)) :=
  (createTransactionStmts data userId txId sid1 sid2).map fun b => [b]

/-- End-to-end `createTransaction`: on success the batch is applied and the
new transaction id returned; on a validation error the state is untouched. -/
def createTransaction (db : DB) (data : TxData) (userId txId sid1 sid2 : Nat) :
    DB × Except String Nat :=
  match createTransactionStmts data userId txId sid1 sid2 with
  | .ok stmts => (applyStmts db stmts, .ok txId)
  | .error e => (db, .error e)

/-- The statement batch built by `deleteTransaction` (queries.js): for every
split of the transaction, subtract its amount from its account balance, then
delete the splits and the header.  Errors if the transaction has no splits. -/
def deleteTransactionStmts (db : DB) (txId : Nat) :
    Except String (List Stmt) :=
  let splits := db.splits.filter fun s => s.transaction_id = txId
  if splits.isEmpty then .error "Transaction not found or has no splits."
  else
    .ok ((splits.map fun s => Stmt.addBalance s.account_id (-s.amount)) ++
      [.deleteSplitsOfTx txId, .deleteTx txId])

/-- The atomic units issued by `deleteTransaction`: one `db.batch` call. -/
def deleteTransactionUnits (db : DB) (txId : Nat) :
    Except String (List (List Stmt)) :=
  (deleteTransactionStmts db txId).map fun b => [b]

/-- End-to-end `deleteTransaction`. -/
def deleteTransaction (db : DB) (txId : Nat) : DB × Except String Unit :=
  match deleteTransactionStmts db txId with
  | .ok stmts => (applyStmts db stmts, .ok ())
  | .error e => (db, .error e)

/-- The statement batch built by `updateTransaction` (queries.js): reverse
the old splits by subtracting each split amount from its account, delete the
old splits, update the header, then rebuild splits and balance deltas from
the new data exactly as `createTransaction` does (the source copies that
logic). -/
def updateTransactionStmts (db : DB) (txId : Nat) (data : TxData)
    (userId sid1 sid2 : Nat) : Except String (List Stmt) :=
  if data.amount ≤ 0 then .error "Invalid amount"
  else
    let oldSplits := db.splits.filter fun s => s.transaction_id = txId
    if oldSplits.isEmpty then .error "Transaction not found or has no splits."
    else
      let base :=
        (oldSplits.map fun s => Stmt.addBalance s.account_id (-s.amount)) ++
        [.deleteSplitsOfTx txId,
         .updateTxHeader txId data.contact_id data.description
           data.transaction_date userId]
      if data.type = "EXPENSE" then
        .ok (base ++
          [.insertSplit ⟨sid1, txId, data.from_account_id, data.category_id,
            data.amount, "DEBIT"⟩,
          .insertSplit ⟨sid2, txId, data.from_account_id, none,
            -data.amount, "CREDIT"⟩,
          .addBalance data.from_account_id (-data.amount)])
      else if data.type = "INCOME" then
        .ok (base ++
          [.insertSplit ⟨sid1, txId, data.to_account_id, none,
            data.amount, "DEBIT"⟩,
          .insertSplit ⟨sid2, txId, data.to_account_id, data.category_id,
            -data.amount, "CREDIT"⟩,
          .addBalance data.to_account_id data.amount])
      else if data.type = "TRANSFER" then
        .ok (base ++
          [.insertSplit ⟨sid1, txId, data.to_account_id, none,
            data.amount, "DEBIT"⟩,
          .insertSplit ⟨sid2, txId, data.from_account_id, none,
            -data.amount, "CREDIT"⟩,
          .addBalance data.to_account_id data.amount,
          .addBalance data.from_account_id (-data.amount)])
      else .error "Invalid transaction type"

/-- The atomic units issued by `updateTransaction`: one `db.batch` call. -/
def updateTransactionUnits (db : DB) (txId : Nat) (data : TxData)
    (userId sid1 sid2 : Nat) : Except String (List (List Stmt)) :=
  (updateTransactionStmts db txId data userId sid1 sid2).map fun b => [b]

/-- End-to-end `updateTransaction`. -/
def updateTransaction (db : DB) (txId : Nat) (data : TxData)
    (userId sid1 sid2 : Nat) : DB × Except String Unit :=
  match updateTransactionStmts db txId data userId sid1 sid2 with
  | .ok stmts => (applyStmts db stmts, .ok ())
  | .error e => (db, .error e)

end Queries

namespace TransactionModel

/-- The `transactionData` argument of `TransactionModel.create` in
`src/models/additional.js`.  `amount` is the user-level amount as an
integer; the source computes `Math.round(transactionData.amount * 100)`,
which on integer input is `amount * 100`.  `tags` is kept in its
JSON-serialized form (the source stores `JSON.stringify(tags)`). -/
structure TxInput where
  bookId : Nat
  type : String
  description : String
  amount : Int
  transactionDate : String
  categoryId : Option Nat
  accountId : Nat
  toAccountId : Nat
  contactId : Option Nat
  tags : String
  notes : Option String
deriving Repr

/-- One element of the `splits` array built by `createTransactionSplits`
before it is inserted. -/
structure BuiltSplit where
  accountId : Nat
  categoryId : Option Nat
  amount : Int
  type : String
deriving Repr, DecidableEq

/-- The `splits` array built by the `switch` in `createTransactionSplits`
(additional.js, lines 470-505): a single categorized split for INCOME and
EXPENSE, two uncategorized splits for TRANSFER, nothing for an unknown
type (the switch has no default). -/
def buildSplits (d : TxInput) : List BuiltSplit :=
  let amount := d.amount * 100
  if d.type = "INCOME" then
    [⟨d.accountId, d.categoryId, amount, "DEBIT"⟩]
  else if d.type = "EXPENSE" then
    [⟨d.accountId, d.categoryId, -amount, "CREDIT"⟩]
  else if d.type = "TRANSFER" then
    [⟨d.toAccountId, none, amount, "DEBIT"⟩,
     ⟨d.accountId, none, -amount, "CREDIT"⟩]
  else []

/-- The header row inserted by `TransactionModel.create`. -/
def newTxRow (d : TxInput) (userId txId : Nat) : TxRow :=
  { id := txId, book_id := d.bookId, contact_id := d.contactId,
    description := d.description, transaction_date := d.transactionDate,
    tags := d.tags, notes := d.notes, attachments := "[]",
    status := "CONFIRMED", created_by := userId, updated_by := none }

/-- The atomic units issued by `TransactionModel.create`: the header INSERT
is one `run()` call, and for each built split the split INSERT and the
balance UPDATE are two further separate `run()` calls — five separately
committed statements for TRANSFER, three for INCOME/EXPENSE.  The source
performs no intent validation: every input reaches storage. -/
def createUnits (d : TxInput) (userId txId sid1 sid2 : Nat) :
    List (List Stmt) :=
  [[Stmt.insertTx (newTxRow d userId txId)]] ++
  (((buildSplits d).zip [sid1, sid2]).map fun p =>
    [[Stmt.insertSplit ⟨p.2, txId, p.1.accountId, p.1.categoryId,
        p.1.amount, p.1.type⟩],
     [Stmt.addBalance p.1.accountId p.1.amount]]).flatten

/-- End-to-end `TransactionModel.create` on the success path.  The only
error the source raises is `DatabaseError` on a storage failure; storage
failures are modeled through `applyFirstUnits`, not here. -/
def create (db : DB) (d : TxInput) (userId txId sid1 sid2 : Nat) : DB :=
  applyUnits db (createUnits d userId txId sid1 sid2)

/-- The atomic units issued by `TransactionModel.delete`: one balance
UPDATE `run()` per split, then the split DELETE and the header DELETE, each
its own `run()`.  There is no existence check: a missing transaction simply
yields zero splits and two no-op deletes. -/
def deleteUnits (db : DB) (txId : Nat) : List (List Stmt) :=
  ((db.splits.filter fun s => s.transaction_id = txId).map fun s =>
    [Stmt.addBalance s.account_id (-s.amount)]) ++
  [[Stmt.deleteSplitsOfTx txId], [Stmt.deleteTx txId]]

/-- End-to-end `TransactionModel.delete` on the success path. -/
def delete (db : DB) (txId : Nat) : DB :=
  applyUnits db (deleteUnits db txId)

/-- One entry of the `updateData` object passed to
`TransactionModel.update`.  The source iterates over whatever keys are
present; `id` and `created_at` are skipped, known `transactions` columns
become `SET` assignments, and any other key (such as `amount`, which is not
a column of `transactions`) makes the single UPDATE statement fail with no
effect. -/
inductive UpdateField
  | book_id (v : Nat)
  | contact_id (v : Option Nat)
  | description (v : String)
  | transaction_date (v : String)
  | tags (v : String)
  | attachments (v : String)
  | notes (v : Option String)
  | status (v : String)
  | created_by (v : Nat)
  | id (v : Nat)
  | created_at (v : String)
  | amount (v : Int)
  | unknownKey (k : String)
deriving Repr, DecidableEq

/-- The bound key of an update field, used for the `id` / `created_at`
filter of `TransactionModel.update`. -/
def UpdateField.key : UpdateField → String
  | .book_id _ => "book_id"
  | .contact_id _ => "contact_id"
  | .description _ => "description"
  | .transaction_date _ => "transaction_date"
  | .tags _ => "tags"
  | .attachments _ => "attachments"
  | .notes _ => "notes"
  | .status _ => "status"
  | .created_by _ => "created_by"
  | .id _ => "id"
  | .created_at _ => "created_at"
  | .amount _ => "amount"
  | .unknownKey k => k

/-- Whether a field names an actual column of the `transactions` table.
`amount` does not: `transactions` has no amount column, so an UPDATE
naming it fails at prepare time. -/
def UpdateField.isColumn : UpdateField → Bool
  | .amount _ => false
  | .unknownKey _ => false
  | _ => true

/-- Apply one `SET key = value` assignment to a header row. -/
def applyField (t : TxRow) : UpdateField → TxRow
  | .book_id v => { t with book_id := v }
  | .contact_id v => { t with contact_id := v }
  | .description v => { t with description := v }
  | .transaction_date v => { t with transaction_date := v }
  | .tags v => { t with tags := v }
  | .attachments v => { t with attachments := v }
  | .notes v => { t with notes := v }
  | .status v => { t with status := v }
  | .created_by v => { t with created_by := v }
  | .id _ => t
  | .created_at _ => t
  | .amount _ => t
  | .unknownKey _ => t

/-- The `fields` array of `TransactionModel.update`: every present payload
key except `id` and `created_at`. -/
def updateFields (payload : List UpdateField) : List UpdateField :=
  payload.filter fun f => f.key ≠ "id" ∧ f.key ≠ "created_at"

/-- End-to-end `TransactionModel.update` (additional.js lines 529-563): a
single `UPDATE transactions SET ... WHERE id = ?` statement built from the
payload keys, after dropping `id` and `created_at`.  An empty field list
throws before any SQL; a field that is not a `transactions` column makes
the statement fail; otherwise the matching header row is updated in place.
The `userId` argument is accepted and ignored, as in the source. -/
def update (db : DB) (txId : Nat) (payload : List UpdateField)
    (_userId : Nat) : DB × Except String Unit :=
  if (updateFields payload).isEmpty then (db, .error "No fields to update")
  else if (updateFields payload).all UpdateField.isColumn then
    ({ db with transactions := db.transactions.map fun t =>
        if t.id = txId then (updateFields payload).foldl applyField t
        else t },
      .ok ())
  else (db, .error "Failed to update transaction")

/-- End-to-end `TransactionModel.createBatch`: a plain loop calling
`create` per intent with its own try/catch.  On the success path of storage
nothing throws — the source validates nothing about the intents — so every
intent is committed and the error list stays empty.  Returns the final
state, the success count and the error count.  Fresh ids are drawn from
`nextId` in blocks of three. -/
def createBatch (db : DB) (inputs : List TxInput) (userId nextId : Nat) :
    DB × Nat × Nat :=
  match inputs with
  | [] => (db, 0, 0)
  | d :: rest =>
      let db1 := create db d userId nextId (nextId + 1) (nextId + 2)
      let r := createBatch db1 rest userId (nextId + 3)
      (r.1, r.2.1 + 1, r.2.2)

end TransactionModel

namespace BooksRoute

/-- One element of the `transactions` array posted to the batch endpoint of
`src/routes/books.js`.  Optional fields model missing JSON keys. -/
structure BatchItem where
  amount : Option Int
  category_id : Option Nat
  from_account_id : Option Nat
  description : Option String
  transaction_date : Option String
  type : String
deriving Repr

/-- The validation guard of the batch endpoint: an item is skipped (with
only a console warning, reported nowhere) unless `amount` is truthy (zero
is falsy), `category_id`, `from_account_id`, `description` and
`transaction_date` are present, and the type is exactly EXPENSE. -/
def itemValid (it : BatchItem) : Bool :=
  (match it.amount with | some a => a ≠ 0 | none => false) &&
  it.category_id.isSome && it.from_account_id.isSome &&
  it.description.isSome && it.transaction_date.isSome &&
  it.type = "EXPENSE"

/-- The four statements pushed for one valid batch item: header INSERT
(with a null contact), categorized DEBIT split of `+|amount|`,
uncategorized CREDIT split of `-|amount|`, and
`UPDATE accounts SET balance = balance - |amount|`.  The source takes
`Math.round(Math.abs(item.amount))`. -/
def itemStmts (bookId userId txId sid1 sid2 : Nat) (it : BatchItem) :
    List Stmt :=
  let amount : Int := (it.amount.getD 0).natAbs
  let acc := it.from_account_id.getD 0
  [.insertTx ⟨txId, bookId, none, it.description.getD "",
      it.transaction_date.getD "", "[]", none, "[]", "CONFIRMED",
      userId, none⟩,
   .insertSplit ⟨sid1, txId, acc, it.category_id, amount, "DEBIT"⟩,
   .insertSplit ⟨sid2, txId, acc, none, -amount, "CREDIT"⟩,
   .addBalance acc (-amount)]

/-- The statement list accumulated over the whole posted array: valid items
contribute their four statements, invalid items contribute nothing. -/
def batchStmts (bookId userId nextId : Nat) (items : List BatchItem) :
    List Stmt :=
  match items with
  | [] => []
  | it :: rest =>
      (if itemValid it then
        itemStmts bookId userId nextId (nextId + 1) (nextId + 2) it
      else []) ++ batchStmts bookId userId (nextId + 3) rest

/-- End-to-end batch endpoint: 400 errors for an empty array or no valid
item, otherwise one atomic `db.batch` of all accumulated statements and a
response carrying only `count = statements / 4` — skipped items are not
reported. -/
def batchCreate (db : DB) (bookId : Nat) (items : List BatchItem)
    (userId nextId : Nat) : DB × Except String Nat :=
  if items.isEmpty then (db, .error "Array transactions diperlukan")
  else if (batchStmts bookId userId nextId items).isEmpty then
    (db, .error "Tidak ada transaksi valid untuk disimpan")
  else
    (applyStmts db (batchStmts bookId userId nextId items),
      .ok ((batchStmts bookId userId nextId items).length / 4))

/-- The atomic units issued by the batch endpoint: the whole accumulated
statement list goes through one `db.batch` call, hence one unit; both 400
error paths return before any statement runs. -/
def batchCreateUnits (_db : DB) (bookId : Nat) (items : List BatchItem)
    (userId nextId : Nat) : Except String (List (List Stmt)) :=
  if items.isEmpty then .error "Array transactions diperlukan"
  else if (batchStmts bookId userId nextId items).isEmpty then
    .error "Tidak ada transaksi valid untuk disimpan"
  else .ok [batchStmts bookId userId nextId items]

end BooksRoute

/-! Concrete inputs used by witnesses and counterexamples. -/

/-- A database with a single account, id 1, balance 100. -/
def exDb : DB := ⟨[⟨1, 100⟩], [], []⟩

/-- A database with a single account, id 1, balance 0. -/
def exDb0 : DB := ⟨[⟨1, 0⟩], [], []⟩

/-- Query-layer EXPENSE intent: 50 minor units from account 1, category 7. -/
def exQExpense : Queries.TxData :=
  ⟨"EXPENSE", 50, 1, none, "food", "2026-01-01", 1, 2, some 7⟩

/-- Query-layer INCOME intent: 100 minor units into account 1, category 5. -/
def exQIncome : Queries.TxData :=
  ⟨"INCOME", 100, 1, none, "salary", "2026-01-01", 2, 1, some 5⟩

/-- A database with a single account, id 1, balance 100000 — scenario 1 of
the specification. -/
def exDbBig : DB := ⟨[⟨1, 100000⟩], [], []⟩

/-- Query-layer EXPENSE intent of 50000 minor units from account 1,
category 7 — scenario 1 of the specification. -/
def exQExpense50000 : Queries.TxData :=
  ⟨"EXPENSE", 50000, 1, none, "food", "2026-01-01", 1, 2, some 7⟩

/-- Query-layer EXPENSE intent of 80000 minor units from account 1,
category 7 — scenario 5 of the specification. -/
def exQExpense80000 : Queries.TxData :=
  ⟨"EXPENSE", 80000, 1, none, "food", "2026-01-01", 1, 2, some 7⟩

/-- The per-account balance delta that the claim asserts Create applies:
INCOME adds the amount to the target account, EXPENSE subtracts it from the
source account, TRANSFER adds to the destination and subtracts from the
source.  Stated from the specification, to be compared with the code. -/
def claimedDelta (data : Queries.TxData) (aid : Nat) : Int :=
  if data.type = "INCOME" then
    (if aid = data.to_account_id then data.amount else 0)
  else if data.type = "EXPENSE" then
    (if aid = data.from_account_id then -data.amount else 0)
  else
    (if aid = data.to_account_id then data.amount else 0) +
    (if aid = data.from_account_id then -data.amount else 0)

/-- The per-account balance delta that the claim asserts the model-layer
create applies, scaled by the stored cents conversion: INCOME adds
`100*amount` to the intent account, EXPENSE subtracts it, TRANSFER adds it
to the destination and subtracts it from the source.  Stated from the
specification, to be compared with the code. -/
def modelClaimedDelta (d : TransactionModel.TxInput) (aid : Nat) : Int :=
  if d.type = "INCOME" then
    (if d.accountId = aid then d.amount * 100 else 0)
  else if d.type = "EXPENSE" then
    (if d.accountId = aid then -(d.amount * 100) else 0)
  else if d.type = "TRANSFER" then
    (if d.toAccountId = aid then d.amount * 100 else 0) +
    (if d.accountId = aid then -(d.amount * 100) else 0)
  else 0

/-- The split rows that the model-layer create inserts: each built split
paired with its generated id. -/
def modelRows (d : TransactionModel.TxInput) (txId sid1 sid2 : Nat) :
    List SplitRow :=
  ((TransactionModel.buildSplits d).zip [sid1, sid2]).map fun p =>
    ⟨p.2, txId, p.1.accountId, p.1.categoryId, p.1.amount, p.1.type⟩

/-- The unit list of the concrete query-layer EXPENSE create: a single
atomic batch. -/
def exCreateUnits : List (List Stmt) :=
  ((Queries.createTransactionUnits exQExpense 9 10 11 12).toOption).getD []

/-- Model-layer INCOME intent of amount 1 into account 1, category 5. -/
def exMIncome : TransactionModel.TxInput :=
  ⟨1, "INCOME", "salary", 1, "2026-01-02", some 5, 1, 0, none, "[]", none⟩

/-- Model-layer INCOME intent with the non-positive amount 0: an invalid
intent in the sense of the specification. -/
def exMIncomeZero : TransactionModel.TxInput :=
  ⟨1, "INCOME", "oops", 0, "2026-01-02", some 5, 1, 0, none, "[]", none⟩

/-- Query-layer EXPENSE intent with the non-positive amount 0: an invalid
intent in the sense of the specification. -/
def exQZeroExpense : Queries.TxData :=
  ⟨"EXPENSE", 0, 1, none, "zero", "2026-01-01", 1, 2, some 7⟩

/-- A database with two accounts: id 1 with balance 70 and id 2 with
balance 0 — scenario 3 of the specification, scaled down. -/
def exDb2 : DB := ⟨[⟨1, 70⟩, ⟨2, 0⟩], [], []⟩

/-- Query-layer TRANSFER intent: 30 minor units from account 1 to
account 2. -/
def exQTransfer : Queries.TxData :=
  ⟨"TRANSFER", 30, 1, none, "move", "2026-01-01", 1, 2, none⟩

/-- A one-element batch list holding a valid EXPENSE item for the books.js
batch endpoint. -/
def exBatchItems : List BooksRoute.BatchItem :=
  [⟨some 50, some 7, some 1, some "food", some "2026-01-01", "EXPENSE"⟩]

/-- The unit list of the concrete batch-endpoint call: a single atomic
batch. -/
def exBatchUnits : List (List Stmt) :=
  ((BooksRoute.batchCreateUnits exDb 1 exBatchItems 9 100).toOption).getD []

/-- One model-layer lifecycle operation together with the ids generated
while it runs. -/
inductive MOp
  | create (d : TransactionModel.TxInput) (userId txId sid1 sid2 : Nat)
  | update (txId : Nat) (payload : List TransactionModel.UpdateField)
      (userId : Nat)
  | delete (txId : Nat)

/-- Run one model-layer operation; an update that throws leaves the state
as it was. -/
def runMOp (db : DB) : MOp → DB
  | .create d u t s1 s2 => TransactionModel.create db d u t s1 s2
  | .update t p u => (TransactionModel.update db t p u).1
  | .delete t => TransactionModel.delete db t

/-- Run a sequence of model-layer operations. -/
def runMOps (db : DB) (ops : List MOp) : DB := ops.foldl runMOp db

/-- The balance invariant of the claim: every account row stores its
initial balance plus the sum of the signed amounts of the
currently-existing splits posted to it. -/
def balInv (db : DB) (init : Nat → Int) : Prop :=
  ∀ a ∈ db.accounts,
    a.balance = init a.id + db.sumSplitsOnAccount a.id

end Casflo

namespace Casflo

/-- C1, counterexample: in the model layer, the transaction created from an
INCOME intent of amount 1 has a single split whose amount sum is 100, not
zero, so the claim fails for the model-layer implementation. -/
theorem C1_model_split_sum_not_zero :
    DB.sumSplitsOfTx
      (TransactionModel.create exDb0 exMIncome 9 10 11 12) 10 = 100 ∧
    (100 : Int) ≠ 0 := by decide

/-- C1: in the query-layer implementation, for every intent and every fresh
transaction id, the splits inserted by `createTransaction` for that
transaction sum to zero — for all three transaction types (and trivially on
the error paths, where no split is inserted). -/
theorem C1_queries_split_sum_zero (db : DB) (data : Queries.TxData)
    (userId txId sid1 sid2 : Nat)
    (hfresh : ∀ s ∈ db.splits, s.transaction_id ≠ txId) :
    DB.sumSplitsOfTx
      (Queries.createTransaction db data userId txId sid1 sid2).1 txId = 0 := by
  have hnil : db.splits.filter (fun s => s.transaction_id = txId) = [] := by
    refine List.filter_eq_nil_iff.mpr ?_
    intro s hs
    simpa using hfresh s hs
  have hsum : DB.sumSplitsOfTx db txId = 0 := by
    simp [DB.sumSplitsOfTx, hnil]
  by_cases hA : data.amount ≤ 0
  · simpa [Queries.createTransaction, Queries.createTransactionStmts, hA]
      using hsum
  · by_cases hE : data.type = "EXPENSE"
    · simp [Queries.createTransaction, Queries.createTransactionStmts, hA, hE,
        applyStmts, applyStmt, DB.sumSplitsOfTx, List.filter_append, hnil]
    · by_cases hI : data.type = "INCOME"
      · simp [Queries.createTransaction, Queries.createTransactionStmts, hA,
          hE, hI, applyStmts, applyStmt, DB.sumSplitsOfTx,
          List.filter_append, hnil]
      · by_cases hT : data.type = "TRANSFER"
        · simp [Queries.createTransaction, Queries.createTransactionStmts,
            hA, hE, hI, hT, applyStmts, applyStmt, DB.sumSplitsOfTx,
            List.filter_append, hnil]
        · simpa [Queries.createTransaction, Queries.createTransactionStmts,
            hA, hE, hI, hT] using hsum

/-- C1, witness: the split-sum theorem applied to the concrete EXPENSE
intent of 50 minor units on the single-account database. -/
theorem C1_queries_split_sum_zero_witness :
    DB.sumSplitsOfTx
      (Queries.createTransaction exDb exQExpense 9 10 11 12).1 10 = 0 :=
  C1_queries_split_sum_zero exDb exQExpense 9 10 11 12 (by decide)

/-- Running a unit list starting with one unit first commits that unit. -/
theorem applyUnits_cons (db : DB) (u : List Stmt) (us : List (List Stmt)) :
    applyUnits db (u :: us) = applyUnits (applyStmts db u) us := rfl

/-- Running concatenated unit lists runs the first list, then the second. -/
theorem applyUnits_append (db : DB) (us vs : List (List Stmt)) :
    applyUnits db (us ++ vs) = applyUnits (applyUnits db us) vs := by
  simp [applyUnits, List.foldl_append]

/-- A singleton statement list is one statement. -/
theorem applyStmts_singleton (db : DB) (s : Stmt) :
    applyStmts db [s] = applyStmt db s := rfl

/-- Running concatenated statement lists runs the first, then the second. -/
theorem applyStmts_append (db : DB) (l1 l2 : List Stmt) :
    applyStmts db (l1 ++ l2) = applyStmts (applyStmts db l1) l2 := by
  simp [applyStmts, List.foldl_append]

/-- Inserting a header row changes neither accounts nor splits, so the
balance invariant survives. -/
theorem balInv_insertTx (db : DB) (init : Nat → Int) (r : TxRow)
    (h : balInv db init) : balInv (applyStmt db (.insertTx r)) init := by
  intro a ha
  exact h a ha

/-- Deleting a header row changes neither accounts nor splits, so the
balance invariant survives. -/
theorem balInv_deleteTx (db : DB) (init : Nat → Int) (tid : Nat)
    (h : balInv db init) : balInv (applyStmt db (.deleteTx tid)) init := by
  intro a ha
  exact h a ha

/-- Appending one split row adds its amount to the split sum of exactly its
account. -/
theorem sumOnAccount_append_single (db : DB) (r : SplitRow) (aid : Nat) :
    DB.sumSplitsOnAccount { db with splits := db.splits ++ [r] } aid
      = DB.sumSplitsOnAccount db aid
        + (if r.account_id = aid then r.amount else 0) := by
  simp only [DB.sumSplitsOnAccount, List.filter_append]
  by_cases hr : r.account_id = aid
  · simp [hr]
  · simp [hr]

/-- Inserting a split row and then crediting its amount to its account (the
body of the split-insert loop of `createTransactionSplits`) preserves the
balance invariant. -/
theorem balInv_insert_add (db : DB) (init : Nat → Int) (r : SplitRow)
    (h : balInv db init) :
    balInv (applyStmt (applyStmt db (.insertSplit r))
      (.addBalance r.account_id r.amount)) init := by
  intro a ha
  simp only [applyStmt] at ha
  rcases List.mem_map.mp ha with ⟨b, hb, rfl⟩
  have hbal := h b hb
  simp only [DB.sumSplitsOnAccount] at hbal ⊢
  simp only [applyStmt, List.filter_append]
  split_ifs with hid
  · have hacc : r.account_id = b.id := hid.symm
    simp [hacc, hbal]
    ring
  · have hne : ¬ r.account_id = b.id := fun hc => hid hc.symm
    simp [hne, hbal]

/-- The split-insert loop of `createTransactionSplits` — an insert and a
balance update per built split, each its own commit — preserves the balance
invariant. -/
theorem balInv_splitPairs (init : Nat → Int) (txId : Nat)
    (Z : List (TransactionModel.BuiltSplit × Nat)) :
    ∀ db : DB, balInv db init →
      balInv (applyUnits db ((Z.map fun p =>
        [[Stmt.insertSplit ⟨p.2, txId, p.1.accountId, p.1.categoryId,
            p.1.amount, p.1.type⟩],
         [Stmt.addBalance p.1.accountId p.1.amount]]).flatten)) init := by
  induction Z with
  | nil =>
      intro db h
      simpa [applyUnits] using h
  | cons z Z ih =>
      intro db h
      simp only [List.map_cons, List.flatten_cons, List.cons_append,
        List.nil_append]
      rw [applyUnits_cons, applyUnits_cons, applyStmts_singleton,
        applyStmts_singleton]
      exact ih _ (balInv_insert_add db init _ h)

/-- The model-layer `create` preserves the balance invariant: the header
insert does not touch accounts or splits, and each split insert is paired
with the matching balance update. -/
theorem balInv_create (db : DB) (init : Nat → Int)
    (d : TransactionModel.TxInput) (userId txId sid1 sid2 : Nat)
    (h : balInv db init) :
    balInv (TransactionModel.create db d userId txId sid1 sid2) init := by
  unfold TransactionModel.create TransactionModel.createUnits
  simp only [applyUnits, List.foldl_append, List.foldl_cons, List.foldl_nil]
  have h1 : balInv (applyStmts db
      [Stmt.insertTx (TransactionModel.newTxRow d userId txId)]) init :=
    balInv_insertTx db init _ h
  simpa [applyUnits, applyStmts] using
    balInv_splitPairs init txId ((TransactionModel.buildSplits d).zip
      [sid1, sid2]) _ h1

/-- A list of singleton units is the same run as one statement list. -/
theorem applyUnits_singletons (f : SplitRow → Stmt) (L : List SplitRow) :
    ∀ db : DB, applyUnits db (L.map fun s => [f s]) = applyStmts db (L.map f) := by
  induction L with
  | nil => intro db; rfl
  | cons x L ih =>
      intro db
      rw [List.map_cons, applyUnits_cons, applyStmts_singleton, ih,
        List.map_cons]
      rfl

/-- Folding the balance reversal statements of a split list subtracts, from
every account, the sum of that list restricted to the account. -/
theorem applyStmts_addBalances (L : List SplitRow) :
    ∀ db : DB,
      applyStmts db (L.map fun s => Stmt.addBalance s.account_id (-s.amount))
        = { db with accounts := db.accounts.map fun a =>
            { a with balance := a.balance
                - ((L.filter fun s => s.account_id = a.id).map
                    SplitRow.amount).sum } } := by
  induction L with
  | nil =>
      intro db
      have he : (fun a : AccountRow =>
          { a with balance := a.balance
              - ((List.filter (fun s => s.account_id = a.id) []).map
                  SplitRow.amount).sum }) = fun a => a := by
        funext a
        simp
      simp [applyStmts, he]
  | cons x L ih =>
      intro db
      rw [List.map_cons]
      have hstep : applyStmts db
          (Stmt.addBalance x.account_id (-x.amount) ::
            L.map fun s => Stmt.addBalance s.account_id (-s.amount))
          = applyStmts (applyStmt db (Stmt.addBalance x.account_id (-x.amount)))
              (L.map fun s => Stmt.addBalance s.account_id (-s.amount)) := rfl
      rw [hstep, ih]
      simp only [applyStmt]
      rw [List.map_map]
      congr 1
      refine List.map_congr_left ?_
      intro a _
      simp only [Function.comp_apply]
      by_cases hid : a.id = x.account_id
      · have hdec : decide (x.account_id = a.id) = true :=
          decide_eq_true hid.symm
        simp [if_pos hid, List.filter_cons, hdec]
        omega
      · have hdec : decide (x.account_id = a.id) = false :=
          decide_eq_false fun hc => hid hc.symm
        simp [if_neg hid, List.filter_cons, hdec]

/-- Splitting a filtered amount sum along a second predicate. -/
theorem sum_amount_partition (q p : SplitRow → Bool) (l : List SplitRow) :
    ((l.filter p).map SplitRow.amount).sum
      = (((l.filter q).filter p).map SplitRow.amount).sum
        + (((l.filter fun s => !(q s)).filter p).map SplitRow.amount).sum := by
  induction l with
  | nil => simp
  | cons x xs ih =>
      by_cases hq : q x <;> by_cases hp : p x <;>
        simp [hq, hp, ih] <;> ring

/-- The model-layer `delete` preserves the balance invariant: it subtracts
from each account exactly the amounts of the splits it removes. -/
theorem balInv_delete (db : DB) (init : Nat → Int) (txId : Nat)
    (h : balInv db init) :
    balInv (TransactionModel.delete db txId) init := by
  unfold TransactionModel.delete TransactionModel.deleteUnits
  rw [applyUnits_append, applyUnits_singletons, applyStmts_addBalances,
    applyUnits_cons, applyUnits_cons, applyStmts_singleton,
    applyStmts_singleton]
  intro a ha
  simp only [applyUnits, List.foldl_nil, applyStmt] at ha ⊢
  rcases List.mem_map.mp ha with ⟨b, hb, rfl⟩
  have hbal := h b hb
  simp only [DB.sumSplitsOnAccount] at hbal ⊢
  have hpart := sum_amount_partition
    (fun s => s.transaction_id = txId) (fun s => s.account_id = b.id)
    db.splits
  have hnot : (db.splits.filter fun s =>
        !(decide (s.transaction_id = txId)))
      = db.splits.filter fun s => s.transaction_id ≠ txId := by
    refine List.filter_congr ?_
    intro s _
    simp [decide_not]
  rw [hnot] at hpart
  change b.balance - _ = init b.id + _
  omega

/-- The model-layer `update` preserves the balance invariant: both error
paths leave the state unchanged and the success path touches only header
rows. -/
theorem balInv_update (db : DB) (init : Nat → Int) (txId : Nat)
    (payload : List TransactionModel.UpdateField) (userId : Nat)
    (h : balInv db init) :
    balInv (TransactionModel.update db txId payload userId).1 init := by
  unfold TransactionModel.update
  split_ifs
  · exact h
  · intro a ha
    exact h a ha
  · exact h

/-- Any single model-layer lifecycle operation preserves the balance
invariant. -/
theorem balInv_runMOp (db : DB) (init : Nat → Int) (op : MOp)
    (h : balInv db init) : balInv (runMOp db op) init := by
  cases op with
  | create d u t s1 s2 => exact balInv_create db init d u t s1 s2 h
  | update t p u => exact balInv_update db init t p u h
  | delete t => exact balInv_delete db init t h

/-- C2: in the model layer, after any completed sequence of Create, Update
and Delete operations, every account stores its initial balance plus the
sum of the signed amounts of the currently-existing splits posted to it. -/
theorem C2_model_balance_invariant (db : DB) (init : Nat → Int)
    (ops : List MOp) (h : balInv db init) :
    balInv (runMOps db ops) init := by
  induction ops generalizing db with
  | nil => exact h
  | cons op ops ih => exact ih _ (balInv_runMOp db init op h)

/-- C2, witness: the invariant theorem applied to the one-account database
with zero balances, a create of the concrete INCOME intent followed by its
delete. -/
theorem C2_model_balance_invariant_witness :
    balInv (runMOps exDb0 [.create exMIncome 9 10 11 12, .delete 10])
      (fun _ => 0) := by
  refine C2_model_balance_invariant exDb0 (fun _ => 0)
    [.create exMIncome 9 10 11 12, .delete 10] ?_
  intro a ha
  simp [exDb0] at ha
  subst ha
  rfl

/-- C2, counterexample: in the query layer, creating the concrete EXPENSE
intent of 50 from account 1 leaves the stored balance at 50 although the
splits posted to account 1 sum to zero, so balance 50 differs from initial
balance 100 plus split sum 0. -/
theorem C2_queries_invariant_broken :
    DB.balanceOf (Queries.createTransaction exDb exQExpense 9 10 11 12).1 1
        = some 50 ∧
    DB.sumSplitsOnAccount
        (Queries.createTransaction exDb exQExpense 9 10 11 12).1 1 = 0 ∧
    DB.balanceOf exDb 1 = some 100 ∧
    (50 : Int) ≠ 100 + 0 := by decide

/-- C3: in the query layer, creating the EXPENSE intent of 50 from account
1 (balance 100) and then deleting the created transaction removes its
splits but leaves the balance at 50 instead of restoring 100: the deletion
reverses the splits, which sum to zero on the account, not the applied
minus-50 delta.  Delete is therefore not an inverse of Create. -/
theorem C3_queries_delete_not_inverse :
    DB.balanceOf exDb 1 = some 100 ∧
    DB.balanceOf (Queries.createTransaction exDb exQExpense 9 10 11 12).1 1
        = some 50 ∧
    DB.balanceOf
        (Queries.deleteTransaction
          (Queries.createTransaction exDb exQExpense 9 10 11 12).1 10).1 1
        = some 50 ∧
    (Queries.deleteTransaction
        (Queries.createTransaction exDb exQExpense 9 10 11 12).1 10).1.splits
        = [] ∧
    (some (50 : Int)) ≠ some 100 := by decide

/-- C4: scenario 5 of the specification fails in the query layer.  After
creating an EXPENSE of 50000 from account 1 (balance 100000), updating the
transaction to an EXPENSE of 80000 leaves the balance at -30000 — the
update failed to reverse the minus-50000 of the first intent because the
old splits sum to zero on the account — while creating the 80000 intent
fresh on the initial state yields 20000.  Update is therefore not
equivalent to a fresh Create. -/
theorem C4_queries_update_not_delete_create :
    DB.balanceOf
        (Queries.updateTransaction
          (Queries.createTransaction exDbBig exQExpense50000 9 10 11 12).1
          10 exQExpense80000 9 13 14).1 1
        = some (-30000) ∧
    DB.balanceOf (Queries.createTransaction exDbBig exQExpense80000
        9 20 21 22).1 1 = some 20000 ∧
    (some (-30000 : Int)) ≠ some 20000 := by decide

/-- Stopping after any prefix of a single-unit run observes either the
initial or the final state: one `db.batch` call is all-or-nothing. -/
theorem applyFirstUnits_single (db : DB) (b : List Stmt) (k : Nat) :
    applyFirstUnits db [b] k = db ∨
    applyFirstUnits db [b] k = applyUnits db [b] := by
  cases k with
  | zero => exact Or.inl rfl
  | succ n =>
      right
      simp [applyFirstUnits, List.take_succ_cons, List.take_nil]

/-- C5: every route-layer lifecycle operation — createTransaction,
deleteTransaction, updateTransaction, and the books.js batch endpoint —
issues its statements as one single atomic unit, so a storage failure after
any number of committed units leaves either the pre-operation state or the
fully applied state — never a partial one. -/
theorem C5_queries_ops_atomic (db : DB) (k : Nat) :
    (∀ (data : Queries.TxData) (userId txId sid1 sid2 : Nat)
        (us : List (List Stmt)),
      Queries.createTransactionUnits data userId txId sid1 sid2 = .ok us →
      applyFirstUnits db us k = db ∨
        applyFirstUnits db us k = applyUnits db us) ∧
    (∀ (txId : Nat) (us : List (List Stmt)),
      Queries.deleteTransactionUnits db txId = .ok us →
      applyFirstUnits db us k = db ∨
        applyFirstUnits db us k = applyUnits db us) ∧
    (∀ (txId : Nat) (data : Queries.TxData) (userId sid1 sid2 : Nat)
        (us : List (List Stmt)),
      Queries.updateTransactionUnits db txId data userId sid1 sid2 = .ok us →
      applyFirstUnits db us k = db ∨
        applyFirstUnits db us k = applyUnits db us) ∧
    (∀ (bookId : Nat) (items : List BooksRoute.BatchItem)
        (userId nextId : Nat) (us : List (List Stmt)),
      BooksRoute.batchCreateUnits db bookId items userId nextId = .ok us →
      applyFirstUnits db us k = db ∨
        applyFirstUnits db us k = applyUnits db us) := by
  refine ⟨?_, ?_, ?_, ?_⟩
  · intro data userId txId sid1 sid2 us h
    unfold Queries.createTransactionUnits at h
    cases hx : Queries.createTransactionStmts data userId txId sid1 sid2 with
    | ok b =>
        rw [hx] at h
        simp only [Except.map] at h
        cases h
        exact applyFirstUnits_single db b k
    | error e =>
        rw [hx] at h
        simp [Except.map] at h
  · intro txId us h
    unfold Queries.deleteTransactionUnits at h
    cases hx : Queries.deleteTransactionStmts db txId with
    | ok b =>
        rw [hx] at h
        simp only [Except.map] at h
        cases h
        exact applyFirstUnits_single db b k
    | error e =>
        rw [hx] at h
        simp [Except.map] at h
  · intro txId data userId sid1 sid2 us h
    unfold Queries.updateTransactionUnits at h
    cases hx : Queries.updateTransactionStmts db txId data userId sid1 sid2 with
    | ok b =>
        rw [hx] at h
        simp only [Except.map] at h
        cases h
        exact applyFirstUnits_single db b k
    | error e =>
        rw [hx] at h
        simp [Except.map] at h
  · intro bookId items userId nextId us h
    unfold BooksRoute.batchCreateUnits at h
    split_ifs at h
    cases h
    exact applyFirstUnits_single db _ k

/-- C5, witness: the atomicity theorem applied to the concrete EXPENSE
create and to the concrete batch-endpoint call on the one-account database,
stopping after one committed unit. -/
theorem C5_queries_ops_atomic_witness :
    (applyFirstUnits exDb exCreateUnits 1 = exDb ∨
      applyFirstUnits exDb exCreateUnits 1
        = applyUnits exDb exCreateUnits) ∧
    (applyFirstUnits exDb exBatchUnits 1 = exDb ∨
      applyFirstUnits exDb exBatchUnits 1
        = applyUnits exDb exBatchUnits) :=
  ⟨(C5_queries_ops_atomic exDb 1).1 exQExpense 9 10 11 12 exCreateUnits rfl,
   (C5_queries_ops_atomic exDb 1).2.2.2 1 exBatchItems 9 100 exBatchUnits
     rfl⟩

/-- C5, counterexample: the model-layer create is not one atomic unit — a
failure after the first committed statement leaves a state that is neither
the initial nor the final one: the transaction header exists but no split
does. -/
theorem C5_model_create_not_atomic :
    applyFirstUnits exDb0
        (TransactionModel.createUnits exMIncome 9 10 11 12) 1 ≠ exDb0 ∧
    applyFirstUnits exDb0
        (TransactionModel.createUnits exMIncome 9 10 11 12) 1
      ≠ applyUnits exDb0
          (TransactionModel.createUnits exMIncome 9 10 11 12) ∧
    (applyFirstUnits exDb0
        (TransactionModel.createUnits exMIncome 9 10 11 12) 1).transactions
      ≠ [] ∧
    (applyFirstUnits exDb0
        (TransactionModel.createUnits exMIncome 9 10 11 12) 1).splits
      = [] := by decide

/-- For every valid intent, the query-layer create applies exactly the
claimed balance deltas and no others — INCOME adds the amount to the target
account, EXPENSE subtracts it from the source account, TRANSFER adds to the
destination and subtracts from the source; all other accounts keep their
balance. -/
theorem queries_create_accounts_eq (db : DB) (data : Queries.TxData)
    (userId txId sid1 sid2 : Nat) (ha : 0 < data.amount)
    (hty : data.type = "INCOME" ∨ data.type = "EXPENSE" ∨
      data.type = "TRANSFER") :
    (Queries.createTransaction db data userId txId sid1 sid2).1.accounts
      = db.accounts.map fun a =>
          { a with balance := a.balance + claimedDelta data a.id } := by
  have hA : ¬ data.amount ≤ 0 := by omega
  rcases hty with hI | hE | hT
  · simp [Queries.createTransaction, Queries.createTransactionStmts, hA, hI,
      applyStmts, applyStmt, claimedDelta]
    intro a _
    by_cases h : a.id = data.to_account_id
    · simp [h]
    · simp [h]
  · simp [Queries.createTransaction, Queries.createTransactionStmts, hA, hE,
      applyStmts, applyStmt, claimedDelta]
    intro a _
    by_cases h : a.id = data.from_account_id
    · simp [h]
    · simp [h]
  · simp [Queries.createTransaction, Queries.createTransactionStmts, hA, hT,
      applyStmts, applyStmt, claimedDelta, List.map_map]
    intro a _
    split_ifs <;> simp_all

/-- C6, counterexample: the reversal clause fails in the query layer — after
an INCOME of 100 into account 1 the balance is 100, and the reversal
performed by deleteTransaction leaves it at 100 instead of applying the
negated delta, which would restore 0. -/
theorem C6_queries_reversal_not_negated :
    DB.balanceOf (Queries.createTransaction exDb0 exQIncome 9 10 11 12).1 1
        = some 100 ∧
    DB.balanceOf (Queries.deleteTransaction
        (Queries.createTransaction exDb0 exQIncome 9 10 11 12).1 10).1 1
        = some 100 ∧
    (some (100 : Int)) ≠ some (100 + -100) := by decide

/-- Full effect of the split-insert loop of the model-layer create: it
appends the built split rows and adds, to every account, the sum of the
appended rows posted to it. -/
theorem splitPairs_effect (txId : Nat)
    (Z : List (TransactionModel.BuiltSplit × Nat)) :
    ∀ db : DB,
      applyUnits db ((Z.map fun p =>
        [[Stmt.insertSplit ⟨p.2, txId, p.1.accountId, p.1.categoryId,
            p.1.amount, p.1.type⟩],
         [Stmt.addBalance p.1.accountId p.1.amount]]).flatten)
        = { db with
            splits := db.splits ++ Z.map fun p =>
              ⟨p.2, txId, p.1.accountId, p.1.categoryId, p.1.amount,
                p.1.type⟩,
            accounts := db.accounts.map fun a =>
              { a with balance := a.balance
                  + (((Z.map fun p => (⟨p.2, txId, p.1.accountId,
                        p.1.categoryId, p.1.amount, p.1.type⟩ : SplitRow))
                      |>.filter fun s => s.account_id = a.id).map
                        SplitRow.amount).sum } } := by
  induction Z with
  | nil =>
      intro db
      have he : (fun a : AccountRow =>
          { a with balance := a.balance
              + ((List.filter (fun s => s.account_id = a.id)
                  ([] : List SplitRow)).map SplitRow.amount).sum })
          = fun a => a := by
        funext a
        simp
      simp [applyUnits, he]
  | cons z Z ih =>
      intro db
      simp only [List.map_cons, List.flatten_cons, List.cons_append,
        List.nil_append]
      rw [applyUnits_cons, applyUnits_cons, applyStmts_singleton,
        applyStmts_singleton, ih]
      simp only [applyStmt]
      congr 1
      · rw [List.map_map]
        refine List.map_congr_left ?_
        intro a _
        simp only [Function.comp_apply]
        by_cases hid : a.id = z.1.accountId
        · have hdec : decide (z.1.accountId = a.id) = true :=
            decide_eq_true hid.symm
          simp [if_pos hid, List.filter_cons, hdec]
          omega
        · have hdec : decide (z.1.accountId = a.id) = false :=
            decide_eq_false fun hc => hid hc.symm
          simp [if_neg hid, List.filter_cons, hdec]
      · simp [List.append_assoc]

/-- Full effect of the model-layer create: one appended header row, the
built split rows appended, and each account credited with the sum of the
appended rows posted to it. -/
theorem model_create_effect (db : DB) (d : TransactionModel.TxInput)
    (userId txId sid1 sid2 : Nat) :
    TransactionModel.create db d userId txId sid1 sid2
      = { db with
          transactions := db.transactions
            ++ [TransactionModel.newTxRow d userId txId],
          splits := db.splits ++ modelRows d txId sid1 sid2,
          accounts := db.accounts.map fun a =>
            { a with balance := a.balance
                + (((modelRows d txId sid1 sid2).filter
                    fun s => s.account_id = a.id).map
                      SplitRow.amount).sum } } := by
  unfold TransactionModel.create TransactionModel.createUnits modelRows
  rw [applyUnits_append]
  rw [show applyUnits db
      [[Stmt.insertTx (TransactionModel.newTxRow d userId txId)]]
    = applyStmt db (.insertTx (TransactionModel.newTxRow d userId txId))
    from rfl]
  rw [splitPairs_effect]
  rfl

/-- The model-layer delete subtracts, from every account, the sum of the
deleted transaction splits posted to it: the reversal applies exactly the
negated per-account split sums. -/
theorem model_delete_accounts (db : DB) (txId : Nat) :
    (TransactionModel.delete db txId).accounts
      = db.accounts.map fun a =>
          { a with balance := a.balance
              - (((db.splits.filter fun s => s.transaction_id = txId).filter
                  fun s => s.account_id = a.id).map SplitRow.amount).sum } := by
  unfold TransactionModel.delete TransactionModel.deleteUnits
  rw [applyUnits_append, applyUnits_singletons, applyStmts_addBalances,
    applyUnits_cons, applyUnits_cons, applyStmts_singleton,
    applyStmts_singleton]
  rfl

/-- Every row inserted by the model-layer create carries the created
transaction id, so filtering the inserted rows by that id keeps them all. -/
theorem modelRows_filter_tx (d : TransactionModel.TxInput)
    (txId sid1 sid2 : Nat) :
    (modelRows d txId sid1 sid2).filter
        (fun s => s.transaction_id = txId)
      = modelRows d txId sid1 sid2 := by
  refine List.filter_eq_self.mpr ?_
  intro r hr
  rcases List.mem_map.mp hr with ⟨p, _, rfl⟩
  simp

/-- The query-layer delete, on a transaction that has splits, subtracts
from every account the sum of that transaction splits posted to it. -/
theorem queries_delete_accounts (db : DB) (txId : Nat)
    (hne : (db.splits.filter fun s => s.transaction_id = txId) ≠ []) :
    (Queries.deleteTransaction db txId).1.accounts
      = db.accounts.map fun a =>
          { a with balance := a.balance
              - (((db.splits.filter fun s => s.transaction_id = txId).filter
                  fun s => s.account_id = a.id).map SplitRow.amount).sum } := by
  have hst : Queries.deleteTransactionStmts db txId
      = .ok (((db.splits.filter fun s => s.transaction_id = txId).map
          fun s => Stmt.addBalance s.account_id (-s.amount)) ++
        [.deleteSplitsOfTx txId, .deleteTx txId]) := by
    simp only [Queries.deleteTransactionStmts]
    rw [if_neg]
    intro hc
    exact hne (List.isEmpty_iff.mp hc)
  unfold Queries.deleteTransaction
  rw [hst]
  rw [show (match (Except.ok (((db.splits.filter
        fun s => s.transaction_id = txId).map
          fun s => Stmt.addBalance s.account_id (-s.amount)) ++
        [.deleteSplitsOfTx txId, .deleteTx txId]) :
          Except String (List Stmt)) with
      | .ok stmts => (applyStmts db stmts, Except.ok ())
      | .error e => (db, Except.error e))
    = (applyStmts db (((db.splits.filter
        fun s => s.transaction_id = txId).map
          fun s => Stmt.addBalance s.account_id (-s.amount)) ++
        [.deleteSplitsOfTx txId, .deleteTx txId]), Except.ok ()) from rfl]
  rw [applyStmts_append, applyStmts_addBalances]
  rfl

/-- C6: Create applies exactly the claimed balance deltas and no others in
both implementations — in the query layer INCOME adds `+amount` to the
target account, EXPENSE `-amount` to the source, TRANSFER `+amount` to the
destination and `-amount` to the source; in the model layer the same
pattern holds with the stored amount `100*amount`.  The reversal applies
the negated delta in the model layer (deleting a created transaction
restores every account balance) and for query-layer TRANSFER; the
query-layer INCOME/EXPENSE reversal does not (see the counterexample). -/
theorem C6_create_deltas_and_reversal (db : DB) (data : Queries.TxData)
    (d : TransactionModel.TxInput) (userId txId sid1 sid2 : Nat) :
    (0 < data.amount →
      (data.type = "INCOME" ∨ data.type = "EXPENSE" ∨
        data.type = "TRANSFER") →
      (Queries.createTransaction db data userId txId sid1 sid2).1.accounts
        = db.accounts.map fun a =>
            { a with balance := a.balance + claimedDelta data a.id }) ∧
    (0 < d.amount →
      (d.type = "INCOME" ∨ d.type = "EXPENSE" ∨ d.type = "TRANSFER") →
      (TransactionModel.create db d userId txId sid1 sid2).accounts
        = db.accounts.map fun a =>
            { a with balance := a.balance + modelClaimedDelta d a.id }) ∧
    ((∀ s ∈ db.splits, s.transaction_id ≠ txId) →
      (TransactionModel.delete
        (TransactionModel.create db d userId txId sid1 sid2)
        txId).accounts = db.accounts) ∧
    (data.type = "TRANSFER" → 0 < data.amount →
      (∀ s ∈ db.splits, s.transaction_id ≠ txId) →
      (Queries.deleteTransaction
        (Queries.createTransaction db data userId txId sid1 sid2).1
        txId).1.accounts = db.accounts) := by
  refine ⟨fun ha hty => queries_create_accounts_eq db data userId txId sid1
    sid2 ha hty, ?_, ?_, ?_⟩
  · intro _ hty
    rw [model_create_effect]
    refine List.map_congr_left ?_
    intro a _
    rcases hty with hI | hE | hT
    · simp [modelRows, TransactionModel.buildSplits, hI, modelClaimedDelta,
        List.filter_cons]
      by_cases h : d.accountId = a.id
      · simp [h]
      · simp [h]
    · simp [modelRows, TransactionModel.buildSplits, hE, modelClaimedDelta,
        List.filter_cons]
      by_cases h : d.accountId = a.id
      · simp [h]
      · simp [h]
    · simp [modelRows, TransactionModel.buildSplits, hT, modelClaimedDelta,
        List.filter_cons]
      by_cases h1 : d.toAccountId = a.id <;>
        by_cases h2 : d.accountId = a.id <;>
        simp [h1, h2]
  · intro hfresh
    have hnil : db.splits.filter (fun s => s.transaction_id = txId) = [] :=
      List.filter_eq_nil_iff.mpr (by
        intro s hs
        simpa using hfresh s hs)
    rw [model_delete_accounts, model_create_effect]
    simp only [List.filter_append, hnil, List.nil_append,
      modelRows_filter_tx, List.map_map]
    conv_rhs => rw [← List.map_id db.accounts]
    refine List.map_congr_left ?_
    intro a _
    simp [Function.comp]
  · intro hT ha hfresh
    have hA : ¬ data.amount ≤ 0 := by omega
    have hnil : db.splits.filter (fun s => s.transaction_id = txId) = [] :=
      List.filter_eq_nil_iff.mpr (by
        intro s hs
        simpa using hfresh s hs)
    have hacc1 := queries_create_accounts_eq db data userId txId sid1 sid2
      ha (Or.inr (Or.inr hT))
    have hsplits1 : (Queries.createTransaction db data userId txId sid1
        sid2).1.splits = db.splits ++
        [⟨sid1, txId, data.to_account_id, none, data.amount, "DEBIT"⟩,
         ⟨sid2, txId, data.from_account_id, none, -data.amount,
           "CREDIT"⟩] := by
      simp [Queries.createTransaction, Queries.createTransactionStmts, hA,
        hT, applyStmts, applyStmt]
    have hTfilter : ((Queries.createTransaction db data userId txId sid1
        sid2).1.splits.filter fun s => s.transaction_id = txId)
        = [⟨sid1, txId, data.to_account_id, none, data.amount, "DEBIT"⟩,
           ⟨sid2, txId, data.from_account_id, none, -data.amount,
             "CREDIT"⟩] := by
      rw [hsplits1, List.filter_append, hnil]
      simp
    have hne : ((Queries.createTransaction db data userId txId sid1
        sid2).1.splits.filter fun s => s.transaction_id = txId) ≠ [] := by
      rw [hTfilter]
      simp
    have hsum : ∀ aid : Nat,
        ((([⟨sid1, txId, data.to_account_id, none, data.amount, "DEBIT"⟩,
            ⟨sid2, txId, data.from_account_id, none, -data.amount,
              "CREDIT"⟩] : List SplitRow).filter
            fun s => s.account_id = aid).map SplitRow.amount).sum
          = (if aid = data.to_account_id then data.amount else 0)
            + (if aid = data.from_account_id then -data.amount else 0) := by
      intro aid
      by_cases k1 : data.to_account_id = aid <;>
        by_cases k2 : data.from_account_id = aid
      · rw [if_pos k1.symm, if_pos k2.symm]
        simp [List.filter_cons, decide_eq_true k1, decide_eq_true k2]
      · rw [if_pos k1.symm, if_neg fun hc => k2 hc.symm]
        simp [List.filter_cons, decide_eq_true k1, decide_eq_false k2]
      · rw [if_neg fun hc => k1 hc.symm, if_pos k2.symm]
        simp [List.filter_cons, decide_eq_false k1, decide_eq_true k2]
      · rw [if_neg fun hc => k1 hc.symm, if_neg fun hc => k2 hc.symm]
        simp [List.filter_cons, decide_eq_false k1, decide_eq_false k2]
    rw [queries_delete_accounts _ txId hne, hTfilter, hacc1, List.map_map]
    conv_rhs => rw [← List.map_id db.accounts]
    refine List.map_congr_left ?_
    intro a _
    simp only [Function.comp_apply, id_eq, hsum]
    simp [claimedDelta, hT]

/-- C6, witness: the theorem applied at concrete inputs — the INCOME of 100
into account 1 for the query-layer delta clause, the model-layer INCOME of
1 for the model delta and reversal clauses, and the TRANSFER of 30 from
account 1 to account 2 on the two-account database for the query-layer
TRANSFER reversal clause. -/
theorem C6_create_deltas_and_reversal_witness :
    ((Queries.createTransaction exDb exQIncome 9 10 11 12).1.accounts
      = exDb.accounts.map fun a =>
          { a with balance := a.balance + claimedDelta exQIncome a.id }) ∧
    ((TransactionModel.create exDb exMIncome 9 10 11 12).accounts
      = exDb.accounts.map fun a =>
          { a with balance := a.balance
              + modelClaimedDelta exMIncome a.id }) ∧
    ((TransactionModel.delete
        (TransactionModel.create exDb exMIncome 9 10 11 12) 10).accounts
      = exDb.accounts) ∧
    ((Queries.deleteTransaction
        (Queries.createTransaction exDb2 exQTransfer 9 10 11 12).1
        10).1.accounts = exDb2.accounts) :=
  ⟨(C6_create_deltas_and_reversal exDb exQIncome exMIncome 9 10 11 12).1
      (by decide) (Or.inl rfl),
   (C6_create_deltas_and_reversal exDb exQIncome exMIncome 9 10 11
      12).2.1 (by decide) (Or.inl rfl),
   (C6_create_deltas_and_reversal exDb exQIncome exMIncome 9 10 11
      12).2.2.1 (by decide),
   (C6_create_deltas_and_reversal exDb2 exQTransfer exMIncome 9 10 11
      12).2.2.2 rfl (by decide) (by decide)⟩

/-- C7, counterexample: for the concrete INCOME of 100 into account 1 with
category 5, the query-layer create tags the `+100` DEBIT split with NO
category (the category sits on the `-100` CREDIT split), and the
model-layer create inserts only one split — so no implementation inserts
the claimed categorized `+amount` DEBIT / uncategorized `-amount` CREDIT
pair. -/
theorem C7_income_category_on_credit :
    (Queries.createTransaction exDb exQIncome 9 10 11 12).1.splits
      = [⟨11, 10, 1, none, 100, "DEBIT"⟩,
         ⟨12, 10, 1, some 5, -100, "CREDIT"⟩] ∧
    (∀ s ∈ (Queries.createTransaction exDb exQIncome 9 10 11 12).1.splits,
      ¬ (s.type = "DEBIT" ∧ s.category_id = some 5)) ∧
    (TransactionModel.create exDb exMIncome 9 10 11 12).splits.length
      = 1 := by decide

/-- C7: for every INCOME intent with positive amount, the query-layer
create inserts exactly two splits on the target account — `+amount` tagged
DEBIT with no category, and `-amount` tagged CREDIT carrying the intent
category — with net balance effect `+amount` on the target account; the
model-layer create inserts exactly one categorized `+100*amount` DEBIT
split with net effect `+100*amount`. -/
theorem C7_income_split_shape (db : DB) (data : Queries.TxData)
    (d : TransactionModel.TxInput) (userId txId sid1 sid2 : Nat)
    (hq : data.type = "INCOME") (ha : 0 < data.amount)
    (hm : d.type = "INCOME") :
    (Queries.createTransaction db data userId txId sid1 sid2).1.splits
      = db.splits ++
        [⟨sid1, txId, data.to_account_id, none, data.amount, "DEBIT"⟩,
         ⟨sid2, txId, data.to_account_id, data.category_id,
           -data.amount, "CREDIT"⟩] ∧
    (Queries.createTransaction db data userId txId sid1 sid2).1.accounts
      = db.accounts.map (fun a => if a.id = data.to_account_id then
          { a with balance := a.balance + data.amount } else a) ∧
    (TransactionModel.create db d userId txId sid1 sid2).splits
      = db.splits ++
        [⟨sid1, txId, d.accountId, d.categoryId, d.amount * 100,
          "DEBIT"⟩] ∧
    (TransactionModel.create db d userId txId sid1 sid2).accounts
      = db.accounts.map (fun a => if a.id = d.accountId then
          { a with balance := a.balance + d.amount * 100 } else a) := by
  have hA : ¬ data.amount ≤ 0 := by omega
  refine ⟨?_, ?_, ?_, ?_⟩
  · simp [Queries.createTransaction, Queries.createTransactionStmts, hA, hq,
      applyStmts, applyStmt]
  · simp [Queries.createTransaction, Queries.createTransactionStmts, hA, hq,
      applyStmts, applyStmt]
  · simp [TransactionModel.create, TransactionModel.createUnits,
      TransactionModel.buildSplits, hm, applyUnits, applyStmts, applyStmt]
  · simp [TransactionModel.create, TransactionModel.createUnits,
      TransactionModel.buildSplits, hm, applyUnits, applyStmts, applyStmt]

/-- C7, witness: the split-shape theorem applied to the concrete query- and
model-layer INCOME intents on the one-account database. -/
theorem C7_income_split_shape_witness :
    (Queries.createTransaction exDb exQIncome 9 10 11 12).1.splits
      = exDb.splits ++
        [⟨11, 10, exQIncome.to_account_id, none, exQIncome.amount, "DEBIT"⟩,
         ⟨12, 10, exQIncome.to_account_id, exQIncome.category_id,
           -exQIncome.amount, "CREDIT"⟩] ∧
    (Queries.createTransaction exDb exQIncome 9 10 11 12).1.accounts
      = exDb.accounts.map (fun a => if a.id = exQIncome.to_account_id then
          { a with balance := a.balance + exQIncome.amount } else a) ∧
    (TransactionModel.create exDb exMIncome 9 10 11 12).splits
      = exDb.splits ++
        [⟨11, 10, exMIncome.accountId, exMIncome.categoryId,
          exMIncome.amount * 100, "DEBIT"⟩] ∧
    (TransactionModel.create exDb exMIncome 9 10 11 12).accounts
      = exDb.accounts.map (fun a => if a.id = exMIncome.accountId then
          { a with balance := a.balance + exMIncome.amount * 100 }
        else a) :=
  C7_income_split_shape exDb exQIncome exMIncome 9 10 11 12 rfl
    (by decide) rfl

/-- C8: in the query layer, a non-positive amount or an unknown transaction
type makes createTransaction return an error immediately with the database
unchanged — no header, no split and no balance write happens. -/
theorem C8_queries_invalid_intent_no_write (db : DB)
    (data : Queries.TxData) (userId txId sid1 sid2 : Nat)
    (h : data.amount ≤ 0 ∨ (data.type ≠ "INCOME" ∧ data.type ≠ "EXPENSE" ∧
      data.type ≠ "TRANSFER")) :
    (Queries.createTransaction db data userId txId sid1 sid2).1 = db ∧
    ∃ e, (Queries.createTransaction db data userId txId sid1 sid2).2
        = .error e := by
  rcases h with hA | ⟨hI, hE, hT⟩
  · simp [Queries.createTransaction, Queries.createTransactionStmts, hA]
  · by_cases hA : data.amount ≤ 0
    · simp [Queries.createTransaction, Queries.createTransactionStmts, hA]
    · simp [Queries.createTransaction, Queries.createTransactionStmts, hA,
        hI, hE, hT]

/-- C8, witness: the no-write theorem applied to the zero-amount EXPENSE
intent on the one-account database. -/
theorem C8_queries_invalid_intent_no_write_witness :
    (Queries.createTransaction exDb exQZeroExpense 9 10 11 12).1 = exDb ∧
    ∃ e, (Queries.createTransaction exDb exQZeroExpense 9 10 11 12).2
        = .error e :=
  C8_queries_invalid_intent_no_write exDb exQZeroExpense 9 10 11 12
    (Or.inl (by decide))

/-- C8, counterexample: the model-layer create performs no intent
validation — the INCOME intent with amount 0 is persisted: the header row
and one split of amount 0 are written instead of being rejected with no
storage write. -/
theorem C8_model_invalid_intent_written :
    (TransactionModel.create exDb0 exMIncomeZero 9 10 11 12).transactions
        ≠ [] ∧
    (TransactionModel.create exDb0 exMIncomeZero
        9 10 11 12).splits.length = 1 := by decide

/-- The split-insert units of the model-layer create never touch the
transactions table. -/
theorem splitPairs_transactions (txId : Nat)
    (Z : List (TransactionModel.BuiltSplit × Nat)) :
    ∀ db : DB,
      (applyUnits db ((Z.map fun p =>
        [[Stmt.insertSplit ⟨p.2, txId, p.1.accountId, p.1.categoryId,
            p.1.amount, p.1.type⟩],
         [Stmt.addBalance p.1.accountId p.1.amount]]).flatten)).transactions
        = db.transactions := by
  induction Z with
  | nil => intro db; rfl
  | cons z Z ih =>
      intro db
      simp only [List.map_cons, List.flatten_cons, List.cons_append,
        List.nil_append]
      rw [applyUnits_cons, applyUnits_cons, applyStmts_singleton,
        applyStmts_singleton]
      rw [ih]
      rfl

/-- A model-layer create appends exactly one header row. -/
theorem create_transactions (db : DB) (d : TransactionModel.TxInput)
    (userId txId sid1 sid2 : Nat) :
    (TransactionModel.create db d userId txId sid1 sid2).transactions
      = db.transactions ++ [TransactionModel.newTxRow d userId txId] := by
  unfold TransactionModel.create TransactionModel.createUnits
  rw [applyUnits_append, splitPairs_transactions]
  rfl

/-- The model-layer createBatch commits every submitted intent — valid or
not — with an empty error list. -/
theorem createBatch_all_committed (inputs : List TransactionModel.TxInput) :
    ∀ (db : DB) (userId nextId : Nat),
      (TransactionModel.createBatch db inputs userId nextId).2.1
          = inputs.length ∧
      (TransactionModel.createBatch db inputs userId nextId).2.2 = 0 ∧
      (TransactionModel.createBatch db inputs userId
          nextId).1.transactions.length
        = db.transactions.length + inputs.length := by
  induction inputs with
  | nil =>
      intro db userId nextId
      simp [TransactionModel.createBatch]
  | cons d rest ih =>
      intro db userId nextId
      obtain ⟨h1, h2, h3⟩ :=
        ih (TransactionModel.create db d userId nextId (nextId + 1)
          (nextId + 2)) userId (nextId + 3)
      refine ⟨?_, ?_, ?_⟩
      · simp [TransactionModel.createBatch, h1]
      · simp [TransactionModel.createBatch, h2]
      · simp only [TransactionModel.createBatch]
        rw [h3, create_transactions]
        simp [List.length_append]
        omega

/-- The statements accumulated by the route-layer batch endpoint insert one
header per valid item and none for skipped items. -/
theorem batchStmts_transactions (bookId userId : Nat)
    (items : List BooksRoute.BatchItem) :
    ∀ (db : DB) (nextId : Nat),
      (applyStmts db
          (BooksRoute.batchStmts bookId userId nextId
            items)).transactions.length
        = db.transactions.length
          + (items.filter BooksRoute.itemValid).length := by
  induction items with
  | nil =>
      intro db nextId
      simp [BooksRoute.batchStmts, applyStmts]
  | cons it rest ih =>
      intro db nextId
      simp only [BooksRoute.batchStmts]
      by_cases hv : BooksRoute.itemValid it
      · rw [if_pos hv, applyStmts_append, ih]
        simp [BooksRoute.itemStmts, applyStmts, applyStmt,
          List.filter_cons, hv]
        omega
      · rw [if_neg hv, List.nil_append, ih]
        simp [List.filter_cons, hv]

/-- C9: what the two batch implementations actually do.  The model-layer
createBatch commits every submitted intent — the per-item create validates
nothing, so the invalid ones are committed too — and reports an empty error
list; the route-layer batch endpoint commits exactly the valid items (in
one atomic batch) and silently skips invalid ones, reporting nothing about
them.  Neither follows policy A nor policy B of the claim. -/
theorem C9_batch_behavior (db : DB)
    (inputs : List TransactionModel.TxInput)
    (items : List BooksRoute.BatchItem) (userId nextId bookId : Nat) :
    ((TransactionModel.createBatch db inputs userId nextId).2.1
        = inputs.length ∧
      (TransactionModel.createBatch db inputs userId nextId).2.2 = 0 ∧
      (TransactionModel.createBatch db inputs userId
          nextId).1.transactions.length
        = db.transactions.length + inputs.length) ∧
    (BooksRoute.batchCreate db bookId items userId
        nextId).1.transactions.length
      = db.transactions.length
        + (items.filter BooksRoute.itemValid).length := by
  refine ⟨createBatch_all_committed inputs db userId nextId, ?_⟩
  unfold BooksRoute.batchCreate
  split_ifs with h1 h2
  · have : items = [] := List.isEmpty_iff.mp h1
    subst this
    simp
  · have hnil : BooksRoute.batchStmts bookId userId nextId items = [] :=
      List.isEmpty_iff.mp h2
    have := batchStmts_transactions bookId userId items db nextId
    rw [hnil] at this
    simpa [applyStmts] using this
  · exact batchStmts_transactions bookId userId items db nextId

/-- C9, counterexample: for the batch of two INCOME intents where exactly
the second one is invalid (amount 0), the model-layer createBatch commits
both transactions and reports zero errors — neither zero commits (policy A)
nor one commit plus one reported error (policy B). -/
theorem C9_batch_neither_policy :
    (TransactionModel.createBatch exDb0 [exMIncome, exMIncomeZero]
        9 100).1.transactions.length = 2 ∧
    (TransactionModel.createBatch exDb0 [exMIncome, exMIncomeZero]
        9 100).2.2 = 0 ∧
    ¬ ((2 : Nat) = 0) ∧ ¬ ((2 : Nat) = 1 ∧ (0 : Nat) = 1) := by decide

/-- No single `SET` assignment changes the id column of a header row. -/
theorem applyField_id (t : TxRow) (f : TransactionModel.UpdateField) :
    (TransactionModel.applyField t f).id = t.id := by
  cases f <;> rfl

/-- No sequence of `SET` assignments changes the id column. -/
theorem foldl_applyField_id (fs : List TransactionModel.UpdateField) :
    ∀ t : TxRow, (fs.foldl TransactionModel.applyField t).id = t.id := by
  induction fs with
  | nil => intro t; rfl
  | cons f fs ih =>
      intro t
      rw [List.foldl_cons, ih, applyField_id]

/-- C10: the model-layer update mutates only the transactions header
table.  For every payload — including one carrying an amount — the splits
and accounts tables are untouched on every path, and among the header rows
only the row with the targeted id can change, its id preserved. -/
theorem C10_model_update_header_only (db : DB) (txId : Nat)
    (payload : List TransactionModel.UpdateField) (userId : Nat) :
    (TransactionModel.update db txId payload userId).1.splits = db.splits ∧
    (TransactionModel.update db txId payload userId).1.accounts
        = db.accounts ∧
    List.Forall₂ (fun t t2 => t2.id = t.id ∧ (t.id ≠ txId → t2 = t))
      db.transactions
      (TransactionModel.update db txId payload userId).1.transactions := by
  unfold TransactionModel.update
  split_ifs
  · exact ⟨rfl, rfl, List.forall₂_same.mpr fun t _ => ⟨rfl, fun _ => rfl⟩⟩
  · refine ⟨rfl, rfl, ?_⟩
    rw [List.forall₂_map_right_iff]
    refine List.forall₂_same.mpr ?_
    intro t _
    constructor
    · by_cases h : t.id = txId
      · rw [if_pos h, foldl_applyField_id]
      · rw [if_neg h]
    · intro hne
      rw [if_neg hne]
  · exact ⟨rfl, rfl, List.forall₂_same.mpr fun t _ => ⟨rfl, fun _ => rfl⟩⟩

end Casflo
